import Mathlib

/-!
# Verification of `app.js` (cancer-prediction HTTP service)

Shallow embedding of the three request-facing pieces of `src/app.js`:

* the `POST /predict` handler (lines 45-99),
* the `GET /predict/histories` handler (lines 102-120),
* the multer `fileFilter` (lines 36-41) and the error middleware (lines 123-141).

External collaborators (the image decoder, the loaded model, the UUID generator,
the clock and Firestore) are arguments of the handlers: a `World` record fixes
what each of them answers, and every handler returns the HTTP response together
with the ordered list of external calls it made.
-/

namespace App

/-! ## Data model -/

/-- JavaScript `Number` values: the finite doubles are rationals, plus the three
special values.  Both zeros are `finite 0` (they compare equal). -/
inductive JsNumber where
  | nan
  | negInf
  | posInf
  | finite (q : ℚ)

/-- The relational operator `a > b` of JavaScript on two numbers: every
comparison involving `NaN` is `false`; otherwise the order of the extended
reals. -/
def JsNumber.gt : JsNumber → JsNumber → Bool
  | .nan, _ => false
  | _, .nan => false
  | .posInf, .posInf => false
  | .posInf, _ => true
  | .negInf, _ => false
  | .finite _, .posInf => false
  | .finite _, .negInf => true
  | .finite a, .finite b => decide (b < a)

/-- JSON-like values: what `res.json` serialises and what Firestore stores.
An object is its list of (key, value) fields in insertion order. -/
inductive Json where
  | null
  | bool (b : Bool)
  | num (q : ℚ)
  | str (s : String)
  | arr (items : List Json)
  | obj (fields : List (String × Json))

/-- The keys of a JSON object, in order (`Object.keys`); empty for a non-object. -/
def Json.keys : Json → List String
  | .obj fields => fields.map Prod.fst
  | _ => []

/-- Property lookup `o[k]`; `none` is `undefined`. -/
def Json.get? : Json → String → Option Json
  | .obj fields, k => (fields.find? fun kv => kv.1 == k).map Prod.snd
  | _, _ => none

/-- A thrown JavaScript `Error`: its `message` and, when set, its `code`. -/
structure JsError where
  message : String
  code : Option String := none

/-- What a handler sent: `res.status(status).json(body)`; `res.json` alone
keeps Express's default status 200. -/
structure Response where
  status : Nat
  body : Json

/-- The file multer puts in `req.file`.  `buffer` is `none` when the property is
`undefined`; a `Buffer` object of any length, also zero, is `some bytes`. -/
structure UploadedFile where
  mimetype : String
  buffer : Option (List Nat)

/-- The part of the request the handlers read: `req.file` (`none` is `undefined`). -/
structure Request where
  file : Option UploadedFile

/-! ## Tensors (shape level)

The tensor operations called on lines 63-68 belong to the TensorFlow.js library, not to
this repository.  Their effect on the shape and element type of a tensor is written here
as the library documents it; tensor values stay symbolic.
-/

/-- Element type of a tensor. -/
inductive DType where
  | int32
  | float32
deriving DecidableEq

/-- How the values of a tensor were obtained.  The values themselves are left
symbolic; only shape and element type are computed. -/
inductive TensorData where
  | decoded (bytes : List Nat)
  | resizeBilinear (src : TensorData) (newHeight newWidth : Nat)
  | expandDims (src : TensorData) (axis : Nat)
  | toFloat (src : TensorData)
  | div (src : TensorData) (scalar : ℚ)

/-- A tensor: shape, element type and symbolic contents. -/
structure Tensor where
  shape : List Nat
  dtype : DType
  data : TensorData

/-- Shape behaviour of `tensor.resizeBilinear([newHeight, newWidth])`: the input is
`[height, width, channels]` or `[batch, height, width, channels]`; only the two
spatial dimensions change and the result is float32.  Any other rank throws. -/
def Tensor.resizeBilinear (t : Tensor) (newHeight newWidth : Nat) : Except JsError Tensor :=
  match t.shape with
  | [_, _, c] =>
      .ok ⟨[newHeight, newWidth, c], .float32, .resizeBilinear t.data newHeight newWidth⟩
  | [b, _, _, c] =>
      .ok ⟨[b, newHeight, newWidth, c], .float32, .resizeBilinear t.data newHeight newWidth⟩
  | _ =>
      .error { message := "Error in resizeBilinear: x must be rank 3 or 4, but got rank " ++
        toString t.shape.length ++ "." }

/-- Shape behaviour of `tensor.expandDims(axis)`: a dimension of size 1 is inserted at
position `axis`. -/
def Tensor.expandDims (t : Tensor) (axis : Nat) : Tensor :=
  ⟨t.shape.take axis ++ 1 :: t.shape.drop axis, t.dtype, .expandDims t.data axis⟩

/-- Shape behaviour of `tensor.toFloat()`: a cast, the shape is unchanged. -/
def Tensor.toFloat (t : Tensor) : Tensor :=
  ⟨t.shape, .float32, .toFloat t.data⟩

/-- Shape behaviour of `tensor.div(tf.scalar(s))`: a rank-0 divisor broadcasts, the shape is
unchanged. -/
def Tensor.div (t : Tensor) (scalar : ℚ) : Tensor :=
  ⟨t.shape, t.dtype, .div t.data scalar⟩

/-! ## External collaborators -/

/-- The loaded graph model: `model.predict(tensor).dataSync()` either throws or
gives the flat array of output values. -/
structure Model where
  predict : Tensor → Except JsError (List JsNumber)

/-- A document of a Firestore query snapshot: store-assigned `doc.id` and the
stored fields `doc.data()`. -/
structure Doc where
  id : String
  data : Json

/-- Everything outside the handlers.  `model` is the module-level variable
(`none` while `undefined`, i.e. before loading finished or after it failed).
`decodeImage` is `tf.node.decodeImage(buffer)` with its default arguments: it throws
or decodes to a tensor whose shape it reads from the file
(`[height, width, channels]` for PNG, JPEG and BMP, `[frames, height, width, 3]`
for GIF). -/
structure World where
  model : Option Model
  decodeImage : List Nat → Except JsError (List Nat)
  uuidv4 : String
  toISOString : String
  firestoreAdd : Json → Except JsError Unit
  firestoreGet : Except JsError (List Doc)

/-- One external call made by a handler. -/
inductive Effect where
  | decodeImage (bytes : List Nat)
  | predict (tensor : Tensor)
  | firestoreAdd (collection : String) (document : Json)
  | firestoreGet (collection : String)
  | consoleError (args : List String)

/-- Result of running a handler: the response sent and the external calls in order. -/
structure Outcome where
  response : Response
  effects : List Effect

/-! ## `POST /predict` -/

/-- Line 10: `MAX_FILE_SIZE = 1 * 1024 * 1024`. -/
def MAX_FILE_SIZE : Nat := 1 * 1024 * 1024

/-- Line 73: `const threshold = 0.58`.  The literal denotes the double nearest to
0.58, which is `5224175567749775 / 2^53`. -/
def threshold : JsNumber := .finite (5224175567749775 / 9007199254740992)

/-- Line 74: `prediction[0]`; `none` is `undefined` (empty output array). -/
def probability (prediction : List JsNumber) : Option JsNumber :=
  prediction.head?

/-- The conversion `ToNumber` that `>` applies to its operand: `undefined`
becomes `NaN`, a number is itself. -/
def toNumber : Option JsNumber → JsNumber
  | none => .nan
  | some x => x

/-- Line 75: `probability > threshold ? "Cancer" : "Non-cancer"`. -/
def result (probability : Option JsNumber) : String :=
  if (toNumber probability).gt threshold then "Cancer" else "Non-cancer"

/-- Line 84: `result === "Cancer" ? "Segera periksa ke dokter!" : "Penyakit kanker tidak terdeteksi."`. -/
def suggestion (result : String) : String :=
  if result = "Cancer" then "Segera periksa ke dokter!" else "Penyakit kanker tidak terdeteksi."

/-- Lines 81-86: the `data` object of the response. -/
def responseData (w : World) (probability : Option JsNumber) : Json :=
  .obj [("id", .str w.uuidv4),
        ("result", .str (result probability)),
        ("suggestion", .str (suggestion (result probability))),
        ("createdAt", .str w.toISOString)]

/-- Lines 78-87: the `response` object. -/
def response (w : World) (probability : Option JsNumber) : Json :=
  .obj [("status", .str "success"),
        ("message", .str "Prediksi berhasil dilakukan"),
        ("data", responseData w probability)]

/-- Lines 47-50: the body sent while `model` is unset. -/
def modelNotReadyBody : Json :=
  .obj [("status", .str "fail"), ("message", .str "Model belum siap untuk digunakan.")]

/-- Lines 55-58: the body sent when there is no file or no buffer. -/
def noFileBody : Json :=
  .obj [("status", .str "fail"),
        ("message", .str "Tidak ada file yang diunggah atau file kosong.")]

/-- Lines 94-97: the body sent by the `catch` block. -/
def predictionErrorBody : Json :=
  .obj [("status", .str "fail"), ("message", .str "Terjadi kesalahan dalam melakukan prediksi.")]

/-- Lines 63-68: the preprocessing chain applied to the decoded image. -/
def preprocess (imageBuffer : List Nat) (decodedShape : List Nat) : Except JsError Tensor :=
  match (Tensor.mk decodedShape .int32 (.decoded imageBuffer)).resizeBilinear 224 224 with
  | .error e => .error e
  | .ok resized => .ok (((resized.expandDims 0).toFloat).div 255)

/-- Lines 63-68 with the decoder call: `tf.node.decodeImage(imageBuffer)` followed by the chain. -/
def imageToTensor (w : World) (imageBuffer : List Nat) : Except JsError Tensor :=
  match w.decodeImage imageBuffer with
  | .error e => .error e
  | .ok decodedShape => preprocess imageBuffer decodedShape

/-- Lines 92-98: the `catch` block, reached with the calls made so far. -/
def catchBlock (error : JsError) (effects : List Effect) : Outcome :=
  { response := ⟨400, predictionErrorBody⟩
    effects := effects ++ [.consoleError ["Error during prediction:", error.message]] }

/-- Lines 45-99: the `POST /predict` handler, run after the upload middleware has
set `req.file`. -/
def predictHandler (w : World) (req : Request) : Outcome :=
  match w.model with
  | none => { response := ⟨500, modelNotReadyBody⟩, effects := [] }
  | some model =>
    match req.file with
    | none => { response := ⟨400, noFileBody⟩, effects := [] }
    | some file =>
      match file.buffer with
      | none => { response := ⟨400, noFileBody⟩, effects := [] }
      | some imageBuffer =>
        match imageToTensor w imageBuffer with
        | .error e => catchBlock e [.decodeImage imageBuffer]
        | .ok tensor =>
          match model.predict tensor with
          | .error e => catchBlock e [.decodeImage imageBuffer, .predict tensor]
          | .ok prediction =>
            let document := response w (probability prediction)
            match w.firestoreAdd document with
            | .error e =>
                catchBlock e [.decodeImage imageBuffer, .predict tensor,
                  .firestoreAdd "predictions" document]
            | .ok _ =>
                { response := ⟨200, document⟩
                  effects := [.decodeImage imageBuffer, .predict tensor,
                    .firestoreAdd "predictions" document] }

/-! ## `GET /predict/histories` -/

/-- Lines 105-108: `doc => ({ id: doc.id, history: doc.data() })`. -/
def historyEntry (doc : Doc) : Json :=
  .obj [("id", .str doc.id), ("history", doc.data)]

/-- Lines 115-118: the body sent when reading the collection failed. -/
def historiesErrorBody : Json :=
  .obj [("status", .str "error"),
        ("message", .str "Terjadi kesalahan saat mengambil data riwayat prediksi.")]

/-- Lines 102-120: the `GET /predict/histories` handler. -/
def historiesHandler (w : World) : Outcome :=
  match w.firestoreGet with
  | .ok docs =>
      { response := ⟨200, .obj [("status", .str "success"),
                                ("data", .arr (docs.map historyEntry))]⟩
        effects := [.firestoreGet "predictions"] }
  | .error e =>
      { response := ⟨500, historiesErrorBody⟩
        effects := [.firestoreGet "predictions",
          .consoleError ["Error fetching histories:", e.message]] }

/-! ## Upload filter and error middleware -/

/-- JavaScript `s.startsWith(p)`: `p` is a prefix of `s`. -/
def startsWith (s p : String) : Bool :=
  p.toList.isPrefixOf s.toList

/-- Lines 36-41: multer's `fileFilter`; the result is the pair of arguments handed
to the callback `cb(error, acceptFile)`. -/
def fileFilter (file : UploadedFile) : Option JsError × Bool :=
  if !startsWith file.mimetype "image/" then
    (some { message := "File harus berupa gambar." }, false)
  else
    (none, true)

/-- Lines 123-141: the error middleware. -/
def errorMiddleware (err : JsError) : Outcome :=
  if err.code = some "LIMIT_FILE_SIZE" then
    { response := ⟨413, .obj [("status", .str "fail"),
        ("message", .str ("Ukuran file melebihi batas maksimal: " ++
          toString (MAX_FILE_SIZE / (1024 * 1024)) ++ "MB"))]⟩
      effects := [] }
  else if err.message = "File harus berupa gambar." then
    { response := ⟨400, .obj [("status", .str "fail"),
        ("message", .str "File harus berupa gambar.")]⟩
      effects := [] }
  else
    { response := ⟨500, .obj [("status", .str "error"),
        ("message", .str "Terjadi kesalahan pada server.")]⟩
      effects := [.consoleError ["Unhandled error:", err.message]] }

/-- The documents a run handed to `firestore.collection(...).add`, in order. -/
def appendedDocuments : List Effect → List Json
  | [] => []
  | .firestoreAdd _ document :: rest => document :: appendedDocuments rest
  | _ :: rest => appendedDocuments rest

/-! ## Sample worlds -/

/-- A model whose output array is the single value `score`, whatever the tensor. -/
def sampleModel (score : JsNumber) : Model :=
  { predict := fun _ => .ok [score] }

/-- A world in which everything succeeds: the model is loaded and scores `score`,
every file decodes to a 2 by 2 RGB image, and Firestore accepts the write. -/
def sampleWorld (score : JsNumber) : World :=
  { model := some (sampleModel score)
    decodeImage := fun _ => .ok [2, 2, 3]
    uuidv4 := "3f0c1de2-6b1a-4c58-9d57-0a4e3a1b2c3d"
    toISOString := "2024-05-01T10:00:00.000Z"
    firestoreAdd := fun _ => .ok ()
    firestoreGet := .ok [] }

/-- The sample world before the model has loaded. -/
def worldNotLoaded : World :=
  { sampleWorld (.finite (9 / 10)) with model := none }

/-- The sample world with a decoder that rejects every buffer. -/
def worldDecodeFails : World :=
  { sampleWorld (.finite (9 / 10)) with
    decodeImage := fun _ => .error { message := "Expected image (BMP, JPEG, PNG, or GIF), but got unsupported image type" } }

/-- The sample world with a Firestore that rejects every write and every read. -/
def worldStoreFails : World :=
  { sampleWorld (.finite (9 / 10)) with
    firestoreAdd := fun _ => .error { message := "UNAVAILABLE" }
    firestoreGet := .error { message := "UNAVAILABLE" } }

/-- The sample world with a decoder that reports a 2 by 2 image with four channels
(what a PNG with an alpha channel decodes to). -/
def worldRgba : World :=
  { sampleWorld (.finite (9 / 10)) with decodeImage := fun _ => .ok [2, 2, 4] }

/-- The sample world with a decoder that reports a GIF of five 2 by 2 frames. -/
def worldGif : World :=
  { sampleWorld (.finite (9 / 10)) with decodeImage := fun _ => .ok [5, 2, 2, 3] }

/-- A request carrying a small PNG-typed upload. -/
def sampleRequest : Request :=
  { file := some { mimetype := "image/png", buffer := some [137, 80, 78, 71] } }

/-! ## Basic facts about the verdict -/

theorem result_cases (p : Option JsNumber) :
    (JsNumber.gt (toNumber p) threshold = true ∧ result p = "Cancer") ∨
    (JsNumber.gt (toNumber p) threshold = false ∧ result p = "Non-cancer") := by
  unfold result
  cases h : JsNumber.gt (toNumber p) threshold <;> simp

theorem suggestion_cancer : suggestion "Cancer" = "Segera periksa ke dokter!" := by
  simp [suggestion]

theorem suggestion_non_cancer :
    suggestion "Non-cancer" = "Penyakit kanker tidak terdeteksi." := by
  simp [suggestion]

theorem gt_threshold_finite (q : ℚ) :
    JsNumber.gt (.finite q) threshold = true ↔ 5224175567749775 / 9007199254740992 < q := by
  simp [JsNumber.gt, threshold]

theorem result_finite_iff (q : ℚ) :
    result (some (.finite q)) = "Cancer" ↔ 5224175567749775 / 9007199254740992 < q := by
  rcases result_cases (some (.finite q)) with ⟨h, hr⟩ | ⟨h, hr⟩
  · rw [hr]
    simpa [toNumber] using (gt_threshold_finite q).mp h
  · rw [hr]
    have hn : ¬ (5224175567749775 / 9007199254740992 < q) := by
      intro hq
      have := (gt_threshold_finite q).mpr hq
      simp [toNumber] at h
      rw [h] at this
      exact Bool.noConfusion this
    simpa using hn

/-- No double lies strictly between the double denoted by `0.58` and the real
number 0.58: for a value `m * 2^e` with a 53-bit significand, exceeding one is
exceeding the other. -/
theorem double_gt_iff (m e : ℤ) (hm : |m| < 2 ^ 53) :
    (5224175567749775 / 9007199254740992 : ℚ) < m * 2 ^ e ↔ (58 / 100 : ℚ) < m * 2 ^ e := by
  constructor
  · intro h
    by_cases he : -53 ≤ e
    · obtain ⟨n, rfl⟩ : ∃ n : ℕ, e = (n : ℤ) - 53 := ⟨(e + 53).toNat, by omega⟩
      have h2 : ((2 : ℚ) ^ ((n : ℤ) - 53)) = 2 ^ n / 9007199254740992 := by
        rw [zpow_sub₀ (by norm_num), zpow_natCast]; norm_num
      rw [h2] at h ⊢
      have h3 : (5224175567749775 : ℤ) < m * 2 ^ n := by
        have : ((5224175567749775 : ℤ) : ℚ) < ((m * 2 ^ n : ℤ) : ℚ) := by
          push_cast
          rw [← mul_div_assoc] at h
          have := (div_lt_div_iff_of_pos_right (by norm_num : (0 : ℚ) < 9007199254740992)).mp h
          linarith
        exact_mod_cast this
      have h4 : ((5224175567749776 : ℤ) : ℚ) ≤ ((m * 2 ^ n : ℤ) : ℚ) := by
        exact_mod_cast (by omega : (5224175567749776 : ℤ) ≤ m * 2 ^ n)
      push_cast at h4
      rw [← mul_div_assoc, lt_div_iff₀ (by norm_num)]
      linarith
    · exfalso
      have hm1 : m < 2 ^ 53 := lt_of_le_of_lt (le_abs_self m) hm
      have hm2 : (m : ℚ) < 2 ^ 53 := by exact_mod_cast hm1
      have hpos : (0 : ℚ) < 2 ^ e := by positivity
      have hle : (2 : ℚ) ^ e ≤ 2 ^ (-54 : ℤ) := zpow_le_zpow_right₀ (by norm_num) (by omega)
      have h5 : (m : ℚ) * 2 ^ e < 2 ^ 53 * 2 ^ e := mul_lt_mul_of_pos_right hm2 hpos
      have h6 : (2 : ℚ) ^ 53 * 2 ^ e ≤ 2 ^ 53 * 2 ^ (-54 : ℤ) :=
        mul_le_mul_of_nonneg_left hle (by positivity)
      have h7 : (2 : ℚ) ^ 53 * 2 ^ (-54 : ℤ) = 1 / 2 := by
        norm_num [zpow_neg]
      have h8 : (1 / 2 : ℚ) < 5224175567749775 / 9007199254740992 := by norm_num
      exact lt_irrefl _ (h.trans (h5.trans_le (h6.trans (h7.le.trans h8.le))))
  · intro h
    have : (5224175567749775 / 9007199254740992 : ℚ) < 58 / 100 := by norm_num
    linarith

/-! ## The decision rule -/

/-- C1: for every value `p` read from the model output (a number, or `undefined` for an
empty output), the verdict pair is ("Cancer", "Segera periksa ke dokter!") exactly when
`p > 0.58` holds in JavaScript, and ("Non-cancer", "Penyakit kanker tidak terdeteksi.")
otherwise; no other pair occurs.  For a finite `p` the test is the strict order of the
rationals against the double denoted by `0.58`, and for every double `p` this is the same
as exceeding the real number 0.58.  `p` equal to the threshold gives "Non-cancer". -/
theorem C1_verdict_iff_above_threshold :
    (∀ p : Option JsNumber,
      ((result p, suggestion (result p)) = ("Cancer", "Segera periksa ke dokter!") ↔
        JsNumber.gt (toNumber p) threshold = true) ∧
      ((result p, suggestion (result p)) = ("Non-cancer", "Penyakit kanker tidak terdeteksi.") ↔
        JsNumber.gt (toNumber p) threshold = false) ∧
      ((result p, suggestion (result p)) = ("Cancer", "Segera periksa ke dokter!") ∨
        (result p, suggestion (result p)) =
          ("Non-cancer", "Penyakit kanker tidak terdeteksi."))) ∧
    (∀ q : ℚ, result (some (.finite q)) = "Cancer" ↔
      5224175567749775 / 9007199254740992 < q) ∧
    (∀ m e : ℤ, |m| < 2 ^ 53 →
      (result (some (.finite (m * 2 ^ e))) = "Cancer" ↔ (58 / 100 : ℚ) < m * 2 ^ e)) ∧
    (result (some threshold), suggestion (result (some threshold))) =
      ("Non-cancer", "Penyakit kanker tidak terdeteksi.") ∧
    result (some .nan) = "Non-cancer" ∧ result none = "Non-cancer" := by
  refine ⟨fun p => ?_, result_finite_iff, fun m e hm => ?_, ?_, ?_, ?_⟩
  · rcases result_cases p with ⟨h, hr⟩ | ⟨h, hr⟩
    · rw [hr, suggestion_cancer, h]; simp
    · rw [hr, suggestion_non_cancer, h]; simp
  · rw [result_finite_iff]; exact double_gt_iff m e hm
  · have hr : result (some threshold) = "Non-cancer" := by
      simp [result, toNumber, threshold, JsNumber.gt]
    rw [hr, suggestion_non_cancer]
  · simp [result, toNumber, JsNumber.gt]
  · simp [result, toNumber, JsNumber.gt]

/-- Witness for C1 at the first double above the threshold, `5224175567749776 * 2^(-53)`. -/
theorem C1_verdict_iff_above_threshold_witness :
    |(5224175567749776 : ℤ)| < 2 ^ 53 ∧
    (result (some (.finite ((5224175567749776 : ℤ) * 2 ^ (-53 : ℤ)))) = "Cancer" ↔
      (58 / 100 : ℚ) < (5224175567749776 : ℤ) * 2 ^ (-53 : ℤ)) :=
  ⟨by norm_num [abs_of_nonneg], C1_verdict_iff_above_threshold.2.2.1 _ _ (by norm_num [abs_of_nonneg])⟩

/-! ## `POST /predict`: guards -/

/-- C2: whenever the handler runs while `model` is unset, whatever `req.file` is, it answers
500 with `{status: "fail", message: "Model belum siap untuk digunakan."}` and makes no
external call at all (no decoding, no scoring, no Firestore write). -/
theorem C2_model_not_loaded (w : World) (req : Request) (hmodel : w.model = none) :
    predictHandler w req =
      { response := ⟨500, .obj [("status", .str "fail"),
          ("message", .str "Model belum siap untuk digunakan.")]⟩
        effects := [] } := by
  simp [predictHandler, hmodel, modelNotReadyBody]

/-- Witness for C2: the sample world before loading, with an image upload. -/
theorem C2_model_not_loaded_witness :
    worldNotLoaded.model = none ∧
    predictHandler worldNotLoaded sampleRequest =
      { response := ⟨500, .obj [("status", .str "fail"),
          ("message", .str "Model belum siap untuk digunakan.")]⟩
        effects := [] } :=
  ⟨rfl, C2_model_not_loaded worldNotLoaded sampleRequest rfl⟩

/-- C3: with the model loaded, a request whose `req.file` is absent, or present without a
`buffer`, is answered 400 with
`{status: "fail", message: "Tidak ada file yang diunggah atau file kosong."}` and no
external call is made (the model is not called, nothing is written). -/
theorem C3_no_file (w : World) (req : Request) (model : Model) (hmodel : w.model = some model)
    (hfile : req.file = none ∨ ∃ file, req.file = some file ∧ file.buffer = none) :
    predictHandler w req =
      { response := ⟨400, .obj [("status", .str "fail"),
          ("message", .str "Tidak ada file yang diunggah atau file kosong.")]⟩
        effects := [] } := by
  rcases hfile with h | ⟨file, h, hb⟩
  · simp [predictHandler, hmodel, h, noFileBody]
  · simp [predictHandler, hmodel, h, hb, noFileBody]

/-- Witness for C3: the sample world with a request that has no file. -/
theorem C3_no_file_witness :
    predictHandler (sampleWorld (.finite (9 / 10))) { file := none } =
      { response := ⟨400, .obj [("status", .str "fail"),
          ("message", .str "Tidak ada file yang diunggah atau file kosong.")]⟩
        effects := [] } :=
  C3_no_file (sampleWorld (.finite (9 / 10))) { file := none }
    (sampleModel (.finite (9 / 10))) rfl (Or.inl rfl)

/-- C4 (behaviour of the code): with the model loaded, an upload whose `buffer` is a `Buffer`
of length zero passes the guard of line 54, because a `Buffer` object is truthy whatever its
length.  The handler hands the empty bytes to `tf.node.decodeImage` as its first external
call and never answers with the empty-input body; with a decoder that rejects empty input the answer
is the generic 400 of the `catch` block. -/
theorem C4_empty_buffer_reaches_decoder (w : World) (model : Model) (mimetype : String) :
    (predictHandler { w with model := some model }
        { file := some { mimetype := mimetype, buffer := some [] } }).effects.head? =
      some (.decodeImage []) ∧
    (predictHandler { w with model := some model }
        { file := some { mimetype := mimetype, buffer := some [] } }).response.body ≠
      .obj [("status", .str "fail"),
        ("message", .str "Tidak ada file yang diunggah atau file kosong.")] ∧
    predictHandler worldDecodeFails
        { file := some { mimetype := "image/png", buffer := some [] } } =
      { response := ⟨400, .obj [("status", .str "fail"),
          ("message", .str "Terjadi kesalahan dalam melakukan prediksi.")]⟩
        effects := [.decodeImage [], .consoleError ["Error during prediction:",
          "Expected image (BMP, JPEG, PNG, or GIF), but got unsupported image type"]] } := by
  refine ⟨?_, ?_, rfl⟩ <;> simp only [predictHandler] <;>
  cases imageToTensor { w with model := some model } [] with
  | error e => simp [catchBlock, predictionErrorBody]
  | ok tensor =>
    simp only []
    cases model.predict tensor with
    | error e => simp [catchBlock, predictionErrorBody]
    | ok prediction =>
      simp only []
      cases w.firestoreAdd (response { w with model := some model } (probability prediction)) with
      | error e => simp [catchBlock, predictionErrorBody]
      | ok u => simp [response]

/-! ## `POST /predict`: the `try` block -/

theorem preprocess_rank3 (imageBuffer : List Nat) (h wd c : Nat) :
    preprocess imageBuffer [h, wd, c] =
      .ok ⟨[1, 224, 224, c], .float32,
        .div (.toFloat (.expandDims (.resizeBilinear (.decoded imageBuffer) 224 224) 0)) 255⟩ := by
  simp [preprocess, Tensor.resizeBilinear, Tensor.expandDims, Tensor.toFloat, Tensor.div]

theorem preprocess_rank4 (imageBuffer : List Nat) (f h wd c : Nat) :
    preprocess imageBuffer [f, h, wd, c] =
      .ok ⟨[1, f, 224, 224, c], .float32,
        .div (.toFloat (.expandDims (.resizeBilinear (.decoded imageBuffer) 224 224) 0)) 255⟩ := by
  simp [preprocess, Tensor.resizeBilinear, Tensor.expandDims, Tensor.toFloat, Tensor.div]

theorem preprocess_ok_of_rank (imageBuffer shape : List Nat)
    (hrank : shape.length = 3 ∨ shape.length = 4) :
    ∃ tensor, preprocess imageBuffer shape = .ok tensor := by
  rcases hrank with h | h
  · match shape, h with
    | [a, b, c], _ => exact ⟨_, preprocess_rank3 imageBuffer a b c⟩
  · match shape, h with
    | [a, b, c, d], _ => exact ⟨_, preprocess_rank4 imageBuffer a b c d⟩

theorem imageToTensor_of_decode (w : World) (imageBuffer shape : List Nat)
    (hdecode : w.decodeImage imageBuffer = .ok shape) :
    imageToTensor w imageBuffer = preprocess imageBuffer shape := by
  simp [imageToTensor, hdecode]

theorem imageToTensor_of_decode_error (w : World) (imageBuffer : List Nat) (e : JsError)
    (hdecode : w.decodeImage imageBuffer = .error e) :
    imageToTensor w imageBuffer = .error e := by
  simp [imageToTensor, hdecode]

/-- The handler once the two guards have passed: what remains is the `try` body. -/
theorem predictHandler_loaded (w : World) (req : Request) (model : Model) (file : UploadedFile)
    (imageBuffer : List Nat) (hmodel : w.model = some model) (hfile : req.file = some file)
    (hbuffer : file.buffer = some imageBuffer) :
    predictHandler w req =
      match imageToTensor w imageBuffer with
      | .error e => catchBlock e [.decodeImage imageBuffer]
      | .ok tensor =>
        match model.predict tensor with
        | .error e => catchBlock e [.decodeImage imageBuffer, .predict tensor]
        | .ok prediction =>
          match w.firestoreAdd (response w (probability prediction)) with
          | .error e =>
              catchBlock e [.decodeImage imageBuffer, .predict tensor,
                .firestoreAdd "predictions" (response w (probability prediction))]
          | .ok _ =>
              { response := ⟨200, response w (probability prediction)⟩
                effects := [.decodeImage imageBuffer, .predict tensor,
                  .firestoreAdd "predictions" (response w (probability prediction))] } := by
  simp [predictHandler, hmodel, hfile, hbuffer]

/-- C5: with the model loaded and a file buffer present, a failure of image decoding (the
decoder call or the resize chain), of model scoring, or of the Firestore append gives 400
with `{status: "fail", message: "Terjadi kesalahan dalam melakukan prediksi."}`.  After a
successful scoring a failing append does not send the success response; status 200 is sent
only when all three steps succeeded. -/
theorem C5_failure_gives_prediction_error (w : World) (req : Request) (model : Model)
    (file : UploadedFile) (imageBuffer : List Nat) (hmodel : w.model = some model)
    (hfile : req.file = some file) (hbuffer : file.buffer = some imageBuffer) :
    (∀ e, w.decodeImage imageBuffer = .error e →
      (predictHandler w req).response = ⟨400, .obj [("status", .str "fail"),
        ("message", .str "Terjadi kesalahan dalam melakukan prediksi.")]⟩) ∧
    (∀ e, imageToTensor w imageBuffer = .error e →
      (predictHandler w req).response = ⟨400, .obj [("status", .str "fail"),
        ("message", .str "Terjadi kesalahan dalam melakukan prediksi.")]⟩) ∧
    (∀ tensor e, imageToTensor w imageBuffer = .ok tensor → model.predict tensor = .error e →
      (predictHandler w req).response = ⟨400, .obj [("status", .str "fail"),
        ("message", .str "Terjadi kesalahan dalam melakukan prediksi.")]⟩) ∧
    (∀ tensor prediction e, imageToTensor w imageBuffer = .ok tensor →
      model.predict tensor = .ok prediction →
      w.firestoreAdd (response w (probability prediction)) = .error e →
      (predictHandler w req).response = ⟨400, .obj [("status", .str "fail"),
        ("message", .str "Terjadi kesalahan dalam melakukan prediksi.")]⟩ ∧
      (predictHandler w req).response.status ≠ 200 ∧
      (predictHandler w req).response.body ≠ response w (probability prediction)) ∧
    ((predictHandler w req).response.status = 200 →
      ∃ tensor prediction, imageToTensor w imageBuffer = .ok tensor ∧
        model.predict tensor = .ok prediction ∧
        w.firestoreAdd (response w (probability prediction)) = .ok ()) := by
  rw [predictHandler_loaded w req model file imageBuffer hmodel hfile hbuffer]
  refine ⟨?_, ?_, ?_, ?_, ?_⟩
  · intro e he
    simp [imageToTensor_of_decode_error w imageBuffer e he, catchBlock, predictionErrorBody]
  · intro e he
    simp [he, catchBlock, predictionErrorBody]
  · intro tensor e ht hp
    simp [ht, hp, catchBlock, predictionErrorBody]
  · intro tensor prediction e ht hp ha
    simp only [ht, hp, ha]
    simp [catchBlock, predictionErrorBody, response]
  · intro h200
    cases ht : imageToTensor w imageBuffer with
    | error e => simp [ht, catchBlock] at h200
    | ok tensor =>
      cases hp : model.predict tensor with
      | error e => simp [ht, hp, catchBlock] at h200
      | ok prediction =>
        cases ha : w.firestoreAdd (response w (probability prediction)) with
        | error e => simp [ht, hp, ha, catchBlock] at h200
        | ok u => exact ⟨tensor, prediction, rfl, hp, ha⟩

/-- Witness for C5: the sample world with a failing Firestore; scoring succeeds, the append
fails, the answer is the 400 failure. -/
theorem C5_failure_gives_prediction_error_witness :
    worldStoreFails.firestoreAdd (response worldStoreFails (probability [.finite (9 / 10)])) =
      .error { message := "UNAVAILABLE" } ∧
    (predictHandler worldStoreFails sampleRequest).response = ⟨400, .obj [("status", .str "fail"),
        ("message", .str "Terjadi kesalahan dalam melakukan prediksi.")]⟩ ∧
    (predictHandler worldStoreFails sampleRequest).response.status ≠ 200 ∧
    (predictHandler worldStoreFails sampleRequest).response.body ≠
      response worldStoreFails (probability [.finite (9 / 10)]) :=
  ⟨rfl, (C5_failure_gives_prediction_error worldStoreFails sampleRequest
    (sampleModel (.finite (9 / 10))) { mimetype := "image/png", buffer := some [137, 80, 78, 71] }
    [137, 80, 78, 71] rfl rfl rfl).2.2.2.1
    ⟨[1, 224, 224, 3], .float32,
      .div (.toFloat (.expandDims (.resizeBilinear (.decoded [137, 80, 78, 71]) 224 224) 0)) 255⟩
    [.finite (9 / 10)] { message := "UNAVAILABLE" } rfl rfl rfl⟩

/-- C7: with the model loaded, a file buffer that decodes (to a rank 3 or rank 4 image), a
model output `prediction` and a successful append, the handler answers 200 with
`{status: "success", message: "Prediksi berhasil dilakukan", data: {id, result, suggestion,
createdAt}}`, where `result` and `suggestion` are the verdict for `prediction[0]`, `id` is
the generated UUID and `createdAt` the generated timestamp.  A first output of 0.9 gives
"Cancer" with "Segera periksa ke dokter!", one of 0.1 gives "Non-cancer" with
"Penyakit kanker tidak terdeteksi." (for the decimal values and for their float32
roundings alike). -/
theorem C7_success_response (w : World) (req : Request) (model : Model) (file : UploadedFile)
    (imageBuffer shape : List Nat) (hmodel : w.model = some model)
    (hfile : req.file = some file) (hbuffer : file.buffer = some imageBuffer)
    (hdecode : w.decodeImage imageBuffer = .ok shape)
    (hrank : shape.length = 3 ∨ shape.length = 4) :
    (∃ tensor, imageToTensor w imageBuffer = .ok tensor ∧
      ∀ prediction, model.predict tensor = .ok prediction →
        w.firestoreAdd (response w (probability prediction)) = .ok () →
        (predictHandler w req).response =
          ⟨200, .obj [("status", .str "success"),
            ("message", .str "Prediksi berhasil dilakukan"),
            ("data", .obj [("id", .str w.uuidv4),
              ("result", .str (result prediction.head?)),
              ("suggestion", .str (suggestion (result prediction.head?))),
              ("createdAt", .str w.toISOString)])]⟩) ∧
    (∀ rest, (result (JsNumber.finite (9 / 10) :: rest).head?,
        suggestion (result (JsNumber.finite (9 / 10) :: rest).head?)) =
      ("Cancer", "Segera periksa ke dokter!")) ∧
    (∀ rest, (result (JsNumber.finite (7549747 / 8388608) :: rest).head?,
        suggestion (result (JsNumber.finite (7549747 / 8388608) :: rest).head?)) =
      ("Cancer", "Segera periksa ke dokter!")) ∧
    (∀ rest, (result (JsNumber.finite (1 / 10) :: rest).head?,
        suggestion (result (JsNumber.finite (1 / 10) :: rest).head?)) =
      ("Non-cancer", "Penyakit kanker tidak terdeteksi.")) ∧
    (∀ rest, (result (JsNumber.finite (13421773 / 134217728) :: rest).head?,
        suggestion (result (JsNumber.finite (13421773 / 134217728) :: rest).head?)) =
      ("Non-cancer", "Penyakit kanker tidak terdeteksi.")) := by
  refine ⟨?_, ?_, ?_, ?_, ?_⟩
  · obtain ⟨tensor, ht⟩ := preprocess_ok_of_rank imageBuffer shape hrank
    have ht2 : imageToTensor w imageBuffer = .ok tensor := by
      rw [imageToTensor_of_decode w imageBuffer shape hdecode, ht]
    refine ⟨tensor, ht2, fun prediction hp ha => ?_⟩
    rw [predictHandler_loaded w req model file imageBuffer hmodel hfile hbuffer]
    simp only [ht2, hp, ha]
    simp [response, responseData, probability]
  · intro rest
    have hr : result (JsNumber.finite (9 / 10) :: rest).head? = "Cancer" := by
      rw [List.head?_cons, result_finite_iff]; norm_num
    rw [hr, suggestion_cancer]
  · intro rest
    have hr : result (JsNumber.finite (7549747 / 8388608) :: rest).head? = "Cancer" := by
      rw [List.head?_cons, result_finite_iff]; norm_num
    rw [hr, suggestion_cancer]
  · intro rest
    have hr : result (JsNumber.finite (1 / 10) :: rest).head? = "Non-cancer" := by
      rcases result_cases (JsNumber.finite (1 / 10) :: rest).head? with ⟨h, _⟩ | ⟨_, hr⟩
      · rw [List.head?_cons] at h
        have := (gt_threshold_finite (1 / 10)).mp (by simpa [toNumber] using h)
        norm_num at this
      · exact hr
    rw [hr, suggestion_non_cancer]
  · intro rest
    have hr : result (JsNumber.finite (13421773 / 134217728) :: rest).head? = "Non-cancer" := by
      rcases result_cases (JsNumber.finite (13421773 / 134217728) :: rest).head? with
        ⟨h, _⟩ | ⟨_, hr⟩
      · rw [List.head?_cons] at h
        have := (gt_threshold_finite (13421773 / 134217728)).mp (by simpa [toNumber] using h)
        norm_num at this
      · exact hr
    rw [hr, suggestion_non_cancer]

/-- Witness for C7: the sample world scoring 0.9 answers 200 with the "Cancer" record. -/
theorem C7_success_response_witness :
    (sampleWorld (.finite (9 / 10))).decodeImage [137, 80, 78, 71] = .ok [2, 2, 3] ∧
    (predictHandler (sampleWorld (.finite (9 / 10))) sampleRequest).response =
      ⟨200, .obj [("status", .str "success"),
        ("message", .str "Prediksi berhasil dilakukan"),
        ("data", .obj [("id", .str "3f0c1de2-6b1a-4c58-9d57-0a4e3a1b2c3d"),
          ("result", .str "Cancer"),
          ("suggestion", .str "Segera periksa ke dokter!"),
          ("createdAt", .str "2024-05-01T10:00:00.000Z")])]⟩ := by
  refine ⟨rfl, ?_⟩
  obtain ⟨tensor, -, h⟩ := (C7_success_response (sampleWorld (.finite (9 / 10))) sampleRequest
    (sampleModel (.finite (9 / 10))) { mimetype := "image/png", buffer := some [137, 80, 78, 71] }
    [137, 80, 78, 71] [2, 2, 3] rfl rfl rfl rfl (Or.inl rfl)).1
  have h2 := h [.finite (9 / 10)] rfl rfl
  have hr : result (some (.finite (9 / 10))) = "Cancer" := by
    rw [result_finite_iff]; norm_num
  rw [h2, List.head?_cons, hr, suggestion_cancer]
  rfl

/-! ## What is written to Firestore -/

theorem appendedDocuments_predictHandler (w : World) (req : Request) :
    appendedDocuments (predictHandler w req).effects = [] ∨
    ∃ prediction, appendedDocuments (predictHandler w req).effects =
        [response w (probability prediction)] ∧
      ((predictHandler w req).response.status = 200 →
        (predictHandler w req).response.body = response w (probability prediction)) := by
  cases hm : w.model with
  | none => left; simp [predictHandler, hm, appendedDocuments]
  | some model =>
    cases hf : req.file with
    | none => left; simp [predictHandler, hm, hf, appendedDocuments]
    | some file =>
      cases hb : file.buffer with
      | none => left; simp [predictHandler, hm, hf, hb, appendedDocuments]
      | some imageBuffer =>
        rw [predictHandler_loaded w req model file imageBuffer hm hf hb]
        cases imageToTensor w imageBuffer with
        | error e => left; simp [catchBlock, appendedDocuments]
        | ok tensor =>
          simp only []
          cases model.predict tensor with
          | error e => left; simp [catchBlock, appendedDocuments]
          | ok prediction =>
            right
            refine ⟨prediction, ?_⟩
            simp only []
            cases w.firestoreAdd (response w (probability prediction)) with
            | error e => simp [catchBlock, appendedDocuments]
            | ok u => simp [appendedDocuments]

theorem appendedDocuments_of_success (w : World) (req : Request)
    (h200 : (predictHandler w req).response.status = 200) :
    appendedDocuments (predictHandler w req).effects = [(predictHandler w req).response.body] := by
  revert h200
  cases hm : w.model with
  | none => simp [predictHandler, hm]
  | some model =>
    cases hf : req.file with
    | none => simp [predictHandler, hm, hf]
    | some file =>
      cases hb : file.buffer with
      | none => simp [predictHandler, hm, hf, hb]
      | some imageBuffer =>
        rw [predictHandler_loaded w req model file imageBuffer hm hf hb]
        cases imageToTensor w imageBuffer with
        | error e => simp [catchBlock]
        | ok tensor =>
          simp only []
          cases model.predict tensor with
          | error e => simp [catchBlock]
          | ok prediction =>
            simp only []
            cases w.firestoreAdd (response w (probability prediction)) with
            | error e => simp [catchBlock]
            | ok u => simp [appendedDocuments]

/-- C6 (as the code behaves): every document the `/predict` handler hands to Firestore is
the whole response object.  Its fields are exactly `status`, `message` and `data`, and it
is `data` that holds exactly the four fields `id`, `result`, `suggestion`, `createdAt`.  A
successful request appends exactly its response body.  When such a document is read back
under store id `sid`, `GET /predict/histories` lists
`{id: sid, history: {status, message, data: {id, result, suggestion, createdAt}}}`. -/
theorem C6_appended_document_is_response (w : World) (req : Request) (document : Json)
    (hdoc : document ∈ appendedDocuments (predictHandler w req).effects) :
    document.keys = ["status", "message", "data"] ∧
    (∃ data, document.get? "data" = some data ∧
      data.keys = ["id", "result", "suggestion", "createdAt"] ∧
      ∀ (w2 : World) (sid : String), w2.firestoreGet = .ok [⟨sid, document⟩] →
        (historiesHandler w2).response.body =
          .obj [("status", .str "success"),
            ("data", .arr [.obj [("id", .str sid),
              ("history", .obj [("status", .str "success"),
                ("message", .str "Prediksi berhasil dilakukan"),
                ("data", data)])]])]) ∧
    ((predictHandler w req).response.status = 200 →
      appendedDocuments (predictHandler w req).effects = [document] ∧
      (predictHandler w req).response.body = document) := by
  have hsucc := appendedDocuments_of_success w req
  rcases appendedDocuments_predictHandler w req with h | ⟨prediction, h, -⟩
  · rw [h] at hdoc; simp at hdoc
  · rw [h] at hdoc
    simp only [List.mem_singleton] at hdoc
    subst hdoc
    refine ⟨by simp [response, Json.keys], ⟨responseData w (probability prediction), ?_, ?_, ?_⟩, ?_⟩
    · simp [response, Json.get?]
    · simp [responseData, Json.keys]
    · intro w2 sid hget
      simp [historiesHandler, hget, historyEntry, response]
    · intro h200
      have h2 := hsucc h200
      rw [h] at h2
      simp only [List.cons.injEq, and_true] at h2
      exact ⟨h, h2.symm⟩

/-- Witness for C6: the document appended by the successful sample request. -/
theorem C6_appended_document_is_response_witness :
    (response (sampleWorld (.finite (9 / 10))) (some (.finite (9 / 10)))).keys =
      ["status", "message", "data"] :=
  (C6_appended_document_is_response (sampleWorld (.finite (9 / 10))) sampleRequest
    (response (sampleWorld (.finite (9 / 10))) (some (.finite (9 / 10))))
    (List.mem_singleton.mpr rfl)).1

/-- C6 fails as stated: the successful sample request appends one document whose fields are
`status`, `message`, `data`, not the four record fields, and the history entry built from
it nests the record one level deeper than `{id, history: {id, result, suggestion,
createdAt}}`. -/
theorem C6_counterexample :
    (predictHandler (sampleWorld (.finite (9 / 10))) sampleRequest).response.status = 200 ∧
    (appendedDocuments (predictHandler (sampleWorld (.finite (9 / 10))) sampleRequest).effects).map
        Json.keys = [["status", "message", "data"]] ∧
    (appendedDocuments (predictHandler (sampleWorld (.finite (9 / 10))) sampleRequest).effects).map
        Json.keys ≠ [["id", "result", "suggestion", "createdAt"]] ∧
    ((historiesHandler { sampleWorld (.finite (9 / 10)) with
        firestoreGet := .ok ((appendedDocuments
          (predictHandler (sampleWorld (.finite (9 / 10))) sampleRequest).effects).map
            (Doc.mk "kT9xQ2")) }).response.body.get? "data").map
      (fun data => match data with
        | .arr items => items.map (fun entry => (entry.get? "history").map Json.keys)
        | _ => []) = some [some ["status", "message", "data"]] := by
  have h : predictHandler (sampleWorld (.finite (9 / 10))) sampleRequest =
      { response := ⟨200, response (sampleWorld (.finite (9 / 10))) (some (.finite (9 / 10)))⟩
        effects := [.decodeImage [137, 80, 78, 71],
          .predict ⟨[1, 224, 224, 3], .float32,
            .div (.toFloat (.expandDims (.resizeBilinear (.decoded [137, 80, 78, 71]) 224 224) 0))
              255⟩,
          .firestoreAdd "predictions"
            (response (sampleWorld (.finite (9 / 10))) (some (.finite (9 / 10))))] } := rfl
  rw [h]
  simp [appendedDocuments, response, Json.keys, historiesHandler, historyEntry, Json.get?]

/-! ## `GET /predict/histories` -/

/-- C8: when Firestore returns the documents `docs`, the handler answers 200 with
`{status: "success", data: L}` where `L` has the length of `docs` and its i-th element is
`{id: docs[i].id, history: docs[i].data}` (same order); for an empty store `data` is `[]`;
when the read fails the answer is 500 with
`{status: "error", message: "Terjadi kesalahan saat mengambil data riwayat prediksi."}`. -/
theorem C8_histories (w : World) :
    (∀ docs, w.firestoreGet = .ok docs →
      ∃ L, (historiesHandler w).response =
          ⟨200, .obj [("status", .str "success"), ("data", .arr L)]⟩ ∧
        L.length = docs.length ∧
        ∀ i : Nat, L[i]? = docs[i]?.map fun (doc : Doc) =>
          Json.obj [("id", Json.str doc.id), ("history", doc.data)]) ∧
    (w.firestoreGet = .ok [] →
      (historiesHandler w).response =
        ⟨200, .obj [("status", .str "success"), ("data", .arr [])]⟩) ∧
    (∀ e, w.firestoreGet = .error e →
      (historiesHandler w).response =
        ⟨500, .obj [("status", .str "error"),
          ("message", .str "Terjadi kesalahan saat mengambil data riwayat prediksi.")]⟩) := by
  refine ⟨fun docs hget => ⟨docs.map historyEntry, ?_, ?_, ?_⟩, fun hget => ?_, fun e hget => ?_⟩
  · simp [historiesHandler, hget]
  · exact List.length_map _ _
  · intro i
    rw [List.getElem?_map]
    rfl
  · simp [historiesHandler, hget]
  · simp [historiesHandler, hget, historiesErrorBody]

/-- Witness for C8: the empty store of the sample world, and the failing store. -/
theorem C8_histories_witness :
    (historiesHandler (sampleWorld (.finite (9 / 10)))).response =
        ⟨200, .obj [("status", .str "success"), ("data", .arr [])]⟩ ∧
    (historiesHandler worldStoreFails).response =
        ⟨500, .obj [("status", .str "error"),
          ("message", .str "Terjadi kesalahan saat mengambil data riwayat prediksi.")]⟩ :=
  ⟨(C8_histories (sampleWorld (.finite (9 / 10)))).2.1 rfl,
   (C8_histories worldStoreFails).2.2 { message := "UNAVAILABLE" } rfl⟩

/-! ## Upload filter -/

theorem startsWith_iff (s p : String) : startsWith s p = true ↔ p.toList <+: s.toList := by
  simp [startsWith]

/-- C9: a file whose declared media type does not start with "image/" is rejected by the
upload filter with an error (and `false`), and the error middleware maps that error to 400
with `{status: "fail", message: "File harus berupa gambar."}`; a file whose media type starts
with "image/" is accepted with no error. -/
theorem C9_file_filter (file : UploadedFile) :
    (¬ "image/".toList <+: file.mimetype.toList →
      ∃ err, fileFilter file = (some err, false) ∧
        errorMiddleware err =
          { response := ⟨400, .obj [("status", .str "fail"),
              ("message", .str "File harus berupa gambar.")]⟩
            effects := [] }) ∧
    ("image/".toList <+: file.mimetype.toList → fileFilter file = (none, true)) := by
  constructor
  · intro h
    have hs : startsWith file.mimetype "image/" = false := by
      cases hb : startsWith file.mimetype "image/" with
      | false => rfl
      | true => exact absurd ((startsWith_iff _ _).mp hb) h
    refine ⟨{ message := "File harus berupa gambar." }, ?_, ?_⟩
    · simp [fileFilter, hs]
    · simp [errorMiddleware]
  · intro h
    have hs : startsWith file.mimetype "image/" = true := (startsWith_iff _ _).mpr h
    simp [fileFilter, hs]

/-- Witness for C9: a PDF upload is rejected and mapped to the 400 answer, a PNG upload is
accepted. -/
theorem C9_file_filter_witness :
    (¬ "image/".toList <+: "application/pdf".toList) ∧
    (∃ err, fileFilter { mimetype := "application/pdf", buffer := some [37, 80, 68, 70] } =
        (some err, false) ∧
      errorMiddleware err =
        { response := ⟨400, .obj [("status", .str "fail"),
            ("message", .str "File harus berupa gambar.")]⟩
          effects := [] }) ∧
    fileFilter { mimetype := "image/png", buffer := some [137, 80, 78, 71] } = (none, true) :=
  ⟨by decide,
   (C9_file_filter { mimetype := "application/pdf", buffer := some [37, 80, 68, 70] }).1
     (by decide),
   (C9_file_filter { mimetype := "image/png", buffer := some [137, 80, 78, 71] }).2
     (by decide)⟩

/-! ## Preprocessing shape -/

/-- C10 (as the code behaves): the chain keeps the number of channels the decoder reports.
An image decoded to `[height, width, channels]` gives a float32 tensor of shape
`[1, 224, 224, channels]`, which is `[1, 224, 224, 3]` exactly when `channels = 3`; a GIF
decoded to `[frames, height, width, channels]` gives `[1, frames, 224, 224, channels]`. -/
theorem C10_preprocess_shape (w : World) (imageBuffer : List Nat) :
    (∀ height width channels, w.decodeImage imageBuffer = .ok [height, width, channels] →
      ∃ tensor, imageToTensor w imageBuffer = .ok tensor ∧
        tensor.shape = [1, 224, 224, channels] ∧ tensor.dtype = .float32 ∧
        (tensor.shape = [1, 224, 224, 3] ↔ channels = 3)) ∧
    (∀ frames height width channels,
      w.decodeImage imageBuffer = .ok [frames, height, width, channels] →
      ∃ tensor, imageToTensor w imageBuffer = .ok tensor ∧
        tensor.shape = [1, frames, 224, 224, channels] ∧ tensor.dtype = .float32) := by
  constructor
  · intro height width channels hdecode
    refine ⟨⟨[1, 224, 224, channels], .float32,
      .div (.toFloat (.expandDims (.resizeBilinear (.decoded imageBuffer) 224 224) 0)) 255⟩,
      ?_, ?_, ?_, ?_⟩
    · rw [imageToTensor_of_decode w imageBuffer _ hdecode, preprocess_rank3]
    · rfl
    · rfl
    · simp
  · intro frames height width channels hdecode
    refine ⟨⟨[1, frames, 224, 224, channels], .float32,
      .div (.toFloat (.expandDims (.resizeBilinear (.decoded imageBuffer) 224 224) 0)) 255⟩,
      ?_, ?_, ?_⟩
    · rw [imageToTensor_of_decode w imageBuffer _ hdecode, preprocess_rank4]
    · rfl
    · rfl

/-- Witness for C10: the 2 by 2 RGB image of the sample world gives `[1, 224, 224, 3]`. -/
theorem C10_preprocess_shape_witness :
    ∃ tensor, imageToTensor (sampleWorld (.finite (9 / 10))) [137, 80, 78, 71] = .ok tensor ∧
      tensor.shape = [1, 224, 224, 3] ∧ tensor.dtype = .float32 ∧
      (tensor.shape = [1, 224, 224, 3] ↔ 3 = 3) :=
  (C10_preprocess_shape (sampleWorld (.finite (9 / 10))) [137, 80, 78, 71]).1 2 2 3 rfl

/-- C10 fails as stated: an image that decodes with four channels (a PNG with alpha) comes out
of the chain with shape `[1, 224, 224, 4]`, and a decoded GIF of five frames with the rank 5
shape `[1, 5, 224, 224, 3]`; neither is `[1, 224, 224, 3]`. -/
theorem C10_counterexample :
    worldRgba.decodeImage [137, 80, 78, 71] = .ok [2, 2, 4] ∧
    (imageToTensor worldRgba [137, 80, 78, 71]).toOption.map Tensor.shape =
      some [1, 224, 224, 4] ∧
    (imageToTensor worldRgba [137, 80, 78, 71]).toOption.map Tensor.shape ≠
      some [1, 224, 224, 3] ∧
    worldGif.decodeImage [71, 73, 70, 56] = .ok [5, 2, 2, 3] ∧
    (imageToTensor worldGif [71, 73, 70, 56]).toOption.map Tensor.shape =
      some [1, 5, 224, 224, 3] ∧
    (imageToTensor worldGif [71, 73, 70, 56]).toOption.map Tensor.shape ≠
      some [1, 224, 224, 3] := by
  refine ⟨rfl, rfl, ?_, rfl, rfl, ?_⟩
  · have h : (imageToTensor worldRgba [137, 80, 78, 71]).toOption.map Tensor.shape =
        some [1, 224, 224, 4] := rfl
    rw [h]; decide
  · have h : (imageToTensor worldGif [71, 73, 70, 56]).toOption.map Tensor.shape =
        some [1, 5, 224, 224, 3] := rfl
    rw [h]; decide

end App
